import Mathlib

/-!
Shallow embedding of the ModSlash moderation cog (Insane-Cogs repository).

Two near-identical implementations exist in the repository:
`src/insane-moderation/modslash.py` (slash commands only) and
`src/modslash/modslash.py` (slash commands, context-menu commands and
prefix-command configuration).  The slash-command handler bodies are
textually identical between the two files, so each slash handler is
embedded once below; the context-menu handlers of the second file get
their own definitions.

Modelling conventions:
* `discord.Member` / `interaction.user` become `Principal`, carrying the
  member id, `name`, `display_name`, the rank of `top_role` (Python
  compares `Role` objects; within a guild that order is the role-position
  order, modelled as `Nat`), the member role-id set (a list), owner status
  (`bot.is_owner(user)` folded into the principal) and whether
  `member.voice and member.voice.channel` is truthy (`inVoice`).
* Every ephemeral `interaction.response.send_message(...)` is recorded in
  the `messages` field of the handler result; every platform mutation call
  (`member.kick`, `member.ban`, `member.edit`) is recorded in `mutations`.
* The outcome of the platform mutation is an input to the handler
  (`MutationResult`): `ok`, `forbidden` (`discord.Forbidden`) or
  `err e` (any other exception with text `e`).  In the source the call is
  made and then raises, so the call itself is recorded even on failure.
-/

structure Principal where
  id : Nat
  name : String
  displayName : String
  topRoleRank : Nat
  roleIds : List Nat
  isOwner : Bool
  inVoice : Bool
deriving Repr, DecidableEq

inductive ModAction where
  | kick | ban | mute | unmute | deafen | undeafen | silence | unsilence
deriving Repr, DecidableEq

inductive MutationResult where
  | ok
  | forbidden
  | err (e : String)
deriving Repr, DecidableEq

/-- A platform mutation call, with the audit reason string passed to it. -/
inductive MutationCall where
  | kickCall (targetId : Nat) (reason : String)
  | banCall (targetId : Nat) (reason : String)
  | editCall (targetId : Nat) (mute : Option Bool) (deafen : Option Bool) (reason : String)
deriving Repr, DecidableEq

structure HandlerResult where
  messages : List String
  mutations : List MutationCall
deriving Repr, DecidableEq

/-- `member.mention` for a user. -/
def mention (p : Principal) : String := "<@" ++ toString p.id ++ ">"

/-- `role.mention` for a role id. -/
def roleMention (r : Nat) : String := "<@&" ++ toString r ++ ">"

/-- Default of the `reason` parameter of the slash commands that take one. -/
def defaultReason : String := "No reason provided."

/-- Result of `is_mod_check`: the boolean it returns plus the ephemeral
messages it sent on the way. -/
structure CheckResult where
  allowed : Bool
  messages : List String
deriving Repr, DecidableEq

/-- `is_mod_check` (identical in both source files): owner bypass, then the
`get_cog("ModSlash")` lookup (`cogPresent`), then the configured guild
`mod_roles`, then intersection with the invoking user role ids. -/
def is_mod_check (actor : Principal) (cogPresent : Bool)
    (mod_role_ids : List Nat) : CheckResult :=
  if actor.isOwner = true then
    ⟨true, []⟩
  else if cogPresent = false then
    ⟨false, []⟩
  else if mod_role_ids = [] then
    ⟨false, ["No moderator roles have been configured on this server."]⟩
  else if actor.roleIds.any (fun r => mod_role_ids.contains r) = false then
    ⟨false, ["You do not have the required role to use this command."]⟩
  else
    ⟨true, []⟩

/-- `kick_slash` (same body in both files).  `botRank` is
`interaction.guild.me.top_role`. -/
def kick_slash (botRank : Nat) (author member : Principal) (reason : String)
    (env : MutationResult) : HandlerResult :=
  if member.id = author.id then
    ⟨["You cannot kick yourself."], []⟩
  else if author.topRoleRank ≤ member.topRoleRank ∧ author.isOwner = false then
    ⟨["You cannot kick a member with an equal or higher role."], []⟩
  else if botRank ≤ member.topRoleRank then
    ⟨["I cannot kick a member with an equal or higher role than me."], []⟩
  else
    let call := MutationCall.kickCall member.id
      ("Kicked by " ++ author.name ++ " (" ++ toString author.id ++ "). Reason: " ++ reason)
    match env with
    | .ok => ⟨["Successfully kicked " ++ mention member ++ ". Reason: " ++ reason], [call]⟩
    | .forbidden => ⟨["I don\x27t have the required permissions to kick this user."], [call]⟩
    | .err e => ⟨["An error occurred: " ++ e], [call]⟩

/-- `ban_slash` (same body in both files). -/
def ban_slash (botRank : Nat) (author member : Principal) (reason : String)
    (env : MutationResult) : HandlerResult :=
  if member.id = author.id then
    ⟨["You cannot ban yourself."], []⟩
  else if author.topRoleRank ≤ member.topRoleRank ∧ author.isOwner = false then
    ⟨["You cannot ban a member with an equal or higher role."], []⟩
  else if botRank ≤ member.topRoleRank then
    ⟨["I cannot ban a member with an equal or higher role than me."], []⟩
  else
    let call := MutationCall.banCall member.id
      ("Banned by " ++ author.name ++ " (" ++ toString author.id ++ "). Reason: " ++ reason)
    match env with
    | .ok => ⟨["Successfully banned " ++ mention member ++ ". Reason: " ++ reason], [call]⟩
    | .forbidden => ⟨["I don\x27t have the required permissions to ban this user."], [call]⟩
    | .err e => ⟨["An error occurred: " ++ e], [call]⟩

/-- `_check_voice_channel`: truthiness of `member.voice and member.voice.channel`,
with the rejection message it sends. -/
def _check_voice_channel (member : Principal) : Bool × List String :=
  if member.inVoice = false then
    (false, [mention member ++ " is not in a voice channel."])
  else
    (true, [])

/-- `mute_slash` (same body in both files).  Note: no self-target check and
no bot-rank check in the source. -/
def mute_slash (author member : Principal) (reason : String)
    (env : MutationResult) : HandlerResult :=
  if member.inVoice = false then
    ⟨[mention member ++ " is not in a voice channel."], []⟩
  else if author.topRoleRank ≤ member.topRoleRank ∧ author.isOwner = false then
    ⟨["You cannot mute a member with an equal or higher role."], []⟩
  else
    let call := MutationCall.editCall member.id (some true) none
      ("Muted by " ++ author.name ++ " (" ++ toString author.id ++ "). Reason: " ++ reason)
    match env with
    | .ok => ⟨["Successfully muted " ++ mention member ++ ". Reason: " ++ reason], [call]⟩
    | .forbidden => ⟨["I don\x27t have the required permissions to mute this user."], [call]⟩
    | .err e => ⟨["An error occurred: " ++ e], [call]⟩

/-- `unmute_slash` (same body in both files); no `reason` parameter. -/
def unmute_slash (author member : Principal) (env : MutationResult) : HandlerResult :=
  if member.inVoice = false then
    ⟨[mention member ++ " is not in a voice channel."], []⟩
  else if author.topRoleRank ≤ member.topRoleRank ∧ author.isOwner = false then
    ⟨["You cannot unmute a member with an equal or higher role."], []⟩
  else
    let call := MutationCall.editCall member.id (some false) none
      ("Unmuted by " ++ author.name ++ " (" ++ toString author.id ++ ").")
    match env with
    | .ok => ⟨["Successfully unmuted " ++ mention member ++ "."], [call]⟩
    | .forbidden => ⟨["I don\x27t have the required permissions to unmute this user."], [call]⟩
    | .err e => ⟨["An error occurred: " ++ e], [call]⟩

/-- `deafen_slash` (same body in both files). -/
def deafen_slash (author member : Principal) (reason : String)
    (env : MutationResult) : HandlerResult :=
  if member.inVoice = false then
    ⟨[mention member ++ " is not in a voice channel."], []⟩
  else if author.topRoleRank ≤ member.topRoleRank ∧ author.isOwner = false then
    ⟨["You cannot deafen a member with an equal or higher role."], []⟩
  else
    let call := MutationCall.editCall member.id none (some true)
      ("Deafened by " ++ author.name ++ " (" ++ toString author.id ++ "). Reason: " ++ reason)
    match env with
    | .ok => ⟨["Successfully deafened " ++ mention member ++ ". Reason: " ++ reason], [call]⟩
    | .forbidden => ⟨["I don\x27t have the required permissions to deafen this user."], [call]⟩
    | .err e => ⟨["An error occurred: " ++ e], [call]⟩

/-- `undeafen_slash` (same body in both files); no `reason` parameter. -/
def undeafen_slash (author member : Principal) (env : MutationResult) : HandlerResult :=
  if member.inVoice = false then
    ⟨[mention member ++ " is not in a voice channel."], []⟩
  else if author.topRoleRank ≤ member.topRoleRank ∧ author.isOwner = false then
    ⟨["You cannot undeafen a member with an equal or higher role."], []⟩
  else
    let call := MutationCall.editCall member.id none (some false)
      ("Undeafened by " ++ author.name ++ " (" ++ toString author.id ++ ").")
    match env with
    | .ok => ⟨["Successfully undeafened " ++ mention member ++ "."], [call]⟩
    | .forbidden => ⟨["I don\x27t have the required permissions to undeafen this user."], [call]⟩
    | .err e => ⟨["An error occurred: " ++ e], [call]⟩

/-- `silence_slash` (same body in both files): one edit sets both flags. -/
def silence_slash (author member : Principal) (reason : String)
    (env : MutationResult) : HandlerResult :=
  if member.inVoice = false then
    ⟨[mention member ++ " is not in a voice channel."], []⟩
  else if author.topRoleRank ≤ member.topRoleRank ∧ author.isOwner = false then
    ⟨["You cannot silence a member with an equal or higher role."], []⟩
  else
    let call := MutationCall.editCall member.id (some true) (some true)
      ("Silenced by " ++ author.name ++ " (" ++ toString author.id ++ "). Reason: " ++ reason)
    match env with
    | .ok => ⟨["Successfully silenced " ++ mention member ++ ". Reason: " ++ reason], [call]⟩
    | .forbidden => ⟨["I don\x27t have the required permissions to silence this user."], [call]⟩
    | .err e => ⟨["An error occurred: " ++ e], [call]⟩

/-- `unsilence_slash` (same body in both files); no `reason` parameter. -/
def unsilence_slash (author member : Principal) (env : MutationResult) : HandlerResult :=
  if member.inVoice = false then
    ⟨[mention member ++ " is not in a voice channel."], []⟩
  else if author.topRoleRank ≤ member.topRoleRank ∧ author.isOwner = false then
    ⟨["You cannot unsilence a member with an equal or higher role."], []⟩
  else
    let call := MutationCall.editCall member.id (some false) (some false)
      ("Unsilenced by " ++ author.name ++ " (" ++ toString author.id ++ ").")
    match env with
    | .ok => ⟨["Successfully unsilenced " ++ mention member ++ "."], [call]⟩
    | .forbidden => ⟨["I don\x27t have the required permissions to unsilence this user."], [call]⟩
    | .err e => ⟨["An error occurred: " ++ e], [call]⟩

/-- The per-action router: an `ActionRequest` handed to the handler of its
action.  `reasonOpt = none` models an omitted `reason` argument, which the
slash-command signature defaults to `"No reason provided."`; the handlers
without a `reason` parameter ignore it.  Only `kick` and `ban` read
`interaction.guild.me` (the bot rank). -/
def dispatch (a : ModAction) (botRank : Nat) (author member : Principal)
    (reasonOpt : Option String) (env : MutationResult) : HandlerResult :=
  match a with
  | .kick => kick_slash botRank author member (reasonOpt.getD defaultReason) env
  | .ban => ban_slash botRank author member (reasonOpt.getD defaultReason) env
  | .mute => mute_slash author member (reasonOpt.getD defaultReason) env
  | .unmute => unmute_slash author member env
  | .deafen => deafen_slash author member (reasonOpt.getD defaultReason) env
  | .undeafen => undeafen_slash author member env
  | .silence => silence_slash author member (reasonOpt.getD defaultReason) env
  | .unsilence => unsilence_slash author member env

/-- Actions whose handler begins with the `_check_voice_channel` guard. -/
def isVoiceAction : ModAction → Bool
  | .kick => false
  | .ban => false
  | _ => true

/-- The name of the action as it appears inside the handler messages. -/
def actionName : ModAction → String
  | .kick => "kick"
  | .ban => "ban"
  | .mute => "mute"
  | .unmute => "unmute"
  | .deafen => "deafen"
  | .undeafen => "undeafen"
  | .silence => "silence"
  | .unsilence => "unsilence"

/-- The per-action "equal or higher role" rejection message. -/
def hierarchyRejectMsg (a : ModAction) : String :=
  "You cannot " ++ actionName a ++ " a member with an equal or higher role."

/-- All guard checks of the handler of `a` pass: for `kick`/`ban` the
self-target, actor-rank and bot-rank checks; for the voice actions the
voice-presence and actor-rank checks. -/
def guardsPass (a : ModAction) (botRank : Nat) (author member : Principal) : Bool :=
  match a with
  | .kick | .ban =>
      decide (member.id ≠ author.id
        ∧ (member.topRoleRank < author.topRoleRank ∨ author.isOwner = true)
        ∧ member.topRoleRank < botRank)
  | _ =>
      decide (member.inVoice = true
        ∧ (member.topRoleRank < author.topRoleRank ∨ author.isOwner = true))

/-- `kick_context_menu` (`src/modslash/modslash.py` only): same three guard
checks as `kick_slash`, but the audit reason is composed from
`author.display_name` with no reason parameter, and the success message
carries no reason. -/
def kick_context_menu (botRank : Nat) (author member : Principal)
    (env : MutationResult) : HandlerResult :=
  let reason := "Kicked by " ++ author.displayName ++ " via context menu."
  if member.id = author.id then
    ⟨["You cannot kick yourself."], []⟩
  else if author.topRoleRank ≤ member.topRoleRank ∧ author.isOwner = false then
    ⟨["You cannot kick a member with an equal or higher role."], []⟩
  else if botRank ≤ member.topRoleRank then
    ⟨["I cannot kick a member with an equal or higher role than me."], []⟩
  else
    let call := MutationCall.kickCall member.id reason
    match env with
    | .ok => ⟨["Successfully kicked " ++ mention member ++ "."], [call]⟩
    | .forbidden => ⟨["I don\x27t have the required permissions to kick this user."], [call]⟩
    | .err e => ⟨["An error occurred: " ++ e], [call]⟩

/-- `ban_context_menu` (`src/modslash/modslash.py` only). -/
def ban_context_menu (botRank : Nat) (author member : Principal)
    (env : MutationResult) : HandlerResult :=
  let reason := "Banned by " ++ author.displayName ++ " via context menu."
  if member.id = author.id then
    ⟨["You cannot ban yourself."], []⟩
  else if author.topRoleRank ≤ member.topRoleRank ∧ author.isOwner = false then
    ⟨["You cannot ban a member with an equal or higher role."], []⟩
  else if botRank ≤ member.topRoleRank then
    ⟨["I cannot ban a member with an equal or higher role than me."], []⟩
  else
    let call := MutationCall.banCall member.id reason
    match env with
    | .ok => ⟨["Successfully banned " ++ mention member ++ "."], [call]⟩
    | .forbidden => ⟨["I don\x27t have the required permissions to ban this user."], [call]⟩
    | .err e => ⟨["An error occurred: " ++ e], [call]⟩

/-- `mute_context_menu` (`src/modslash/modslash.py` only). -/
def mute_context_menu (author member : Principal)
    (env : MutationResult) : HandlerResult :=
  let reason := "Muted by " ++ author.displayName ++ " via context menu."
  if member.inVoice = false then
    ⟨[mention member ++ " is not in a voice channel."], []⟩
  else if author.topRoleRank ≤ member.topRoleRank ∧ author.isOwner = false then
    ⟨["You cannot mute a member with an equal or higher role."], []⟩
  else
    let call := MutationCall.editCall member.id (some true) none reason
    match env with
    | .ok => ⟨["Successfully muted " ++ mention member ++ "."], [call]⟩
    | .forbidden => ⟨["I don\x27t have the required permissions to mute this user."], [call]⟩
    | .err e => ⟨["An error occurred: " ++ e], [call]⟩

/-- `deafen_context_menu` (`src/modslash/modslash.py` only). -/
def deafen_context_menu (author member : Principal)
    (env : MutationResult) : HandlerResult :=
  let reason := "Deafened by " ++ author.displayName ++ " via context menu."
  if member.inVoice = false then
    ⟨[mention member ++ " is not in a voice channel."], []⟩
  else if author.topRoleRank ≤ member.topRoleRank ∧ author.isOwner = false then
    ⟨["You cannot deafen a member with an equal or higher role."], []⟩
  else
    let call := MutationCall.editCall member.id none (some true) reason
    match env with
    | .ok => ⟨["Successfully deafened " ++ mention member ++ "."], [call]⟩
    | .forbidden => ⟨["I don\x27t have the required permissions to deafen this user."], [call]⟩
    | .err e => ⟨["An error occurred: " ++ e], [call]⟩

/-- `add_mod_role` (same body in both files, modulo the reply channel):
returns the updated `mod_roles` list and the reply sent. -/
def add_mod_role (mod_roles : List Nat) (roleId : Nat) : List Nat × String :=
  if roleId ∈ mod_roles then
    (mod_roles, roleMention roleId ++ " is already a moderator role.")
  else
    (mod_roles ++ [roleId], roleMention roleId ++ " has been added as a moderator role.")

/-- `remove_mod_role` (same body in both files, modulo the reply channel).
Python `list.remove` deletes the first occurrence, i.e. `List.erase`. -/
def remove_mod_role (mod_roles : List Nat) (roleId : Nat) : List Nat × String :=
  if roleId ∉ mod_roles then
    (mod_roles, roleMention roleId ++ " is not a moderator role.")
  else
    (mod_roles.erase roleId, roleMention roleId ++ " has been removed from the moderator roles.")

/-- A configuration-store mutation command. -/
inductive ConfigOp where
  | add (r : Nat)
  | remove (r : Nat)
deriving Repr, DecidableEq

/-- Effect of one configuration command on the persisted `mod_roles` list. -/
def applyOp (mod_roles : List Nat) : ConfigOp → List Nat
  | .add r => (add_mod_role mod_roles r).1
  | .remove r => (remove_mod_role mod_roles r).1

/-- Effect of a sequence of configuration commands, starting from a given
list; the registered default is `[]`. -/
def applyOps (mod_roles : List Nat) (ops : List ConfigOp) : List Nat :=
  ops.foldl applyOp mod_roles

/-! Theorems settling the claims. -/

/-- Claim C2 (corrected): the self-target check exists only in the `kick` and
`ban` handlers.  For those two actions a request with `member.id = author.id`
is rejected with the "cannot ... yourself" message before any other check
(the ranks, owner flag and mutation outcome are arbitrary) and no platform
mutation is invoked. -/
theorem C2_self_target_kick_ban (botRank : Nat) (author member : Principal)
    (reason : String) (env : MutationResult) (h : member.id = author.id) :
    kick_slash botRank author member reason env = ⟨["You cannot kick yourself."], []⟩ ∧
    ban_slash botRank author member reason env = ⟨["You cannot ban yourself."], []⟩ := by
  constructor
  · unfold kick_slash
    rw [if_pos h]
  · unfold ban_slash
    rw [if_pos h]

/-- Claim C2 witness: concrete self-target kick request. -/
theorem C2_witness :
    kick_slash 9 (Principal.mk 4 "a" "A" 5 [] false false)
        (Principal.mk 4 "a" "A" 5 [] false false) "x" MutationResult.ok =
      ⟨["You cannot kick yourself."], []⟩ :=
  (C2_self_target_kick_ban 9 (Principal.mk 4 "a" "A" 5 [] false false)
    (Principal.mk 4 "a" "A" 5 [] false false) "x" MutationResult.ok rfl).1

/-- Claim C2 counterexample: the voice handlers have no self-target check.
An owner who targets themself with `/mute` while in a voice channel is not
rejected: the platform mutation is invoked (refuting the claim for the
`mute` action). -/
theorem C2_counterexample :
    (mute_slash (Principal.mk 7 "o" "O" 3 [] true true)
        (Principal.mk 7 "o" "O" 3 [] true true) "x" MutationResult.ok).mutations.length = 1 := by
  decide

/-- Claim C3: `is_mod_check` returns true unconditionally for the bot owner;
with the cog registered it fails closed with the "no roles configured"
notice on an empty configuration, and otherwise returns true exactly when
the invoker shares a role with the configured moderator roles, sending
exactly one ephemeral notice on any false outcome. -/
theorem C3_is_mod_check (actor : Principal) (mods : List Nat) (cog : Bool)
    (hcog : cog = true) :
    (actor.isOwner = true → is_mod_check actor cog mods = ⟨true, []⟩) ∧
    (actor.isOwner = false → mods = [] →
      is_mod_check actor cog mods =
        ⟨false, ["No moderator roles have been configured on this server."]⟩) ∧
    (actor.isOwner = false → mods ≠ [] →
      ((is_mod_check actor cog mods).allowed = true ↔
        actor.roleIds.any (fun r => mods.contains r) = true) ∧
      ((is_mod_check actor cog mods).allowed = false →
        (is_mod_check actor cog mods).messages.length = 1)) := by
  subst hcog
  refine ⟨?_, ?_, ?_⟩
  · intro h
    unfold is_mod_check
    rw [if_pos h]
  · intro h hm
    unfold is_mod_check
    rw [if_neg (by simp [h]), if_neg (by simp), if_pos hm]
  · intro h hm
    unfold is_mod_check
    rw [if_neg (by simp [h]), if_neg (by simp), if_neg hm]
    cases hb : actor.roleIds.any (fun r => mods.contains r) with
    | false => simp
    | true => simp

/-- Claim C3 witness: non-owner invoker holding configured role 11. -/
theorem C3_witness :
    (is_mod_check (Principal.mk 1 "a" "A" 5 [11] false false) true [11, 12]).allowed = true :=
  ((C3_is_mod_check (Principal.mk 1 "a" "A" 5 [11] false false) [11, 12] true rfl).2.2
    rfl (by decide)).1.mpr (by decide)

/-- Claim C5: every voice-action handler starts with `_check_voice_channel`:
when the target has no active voice presence the handler answers
"is not in a voice channel" and stops, for every author, every rank
configuration, every bot rank and every mutation environment — so no
hierarchy comparison influences the outcome and no mutation is invoked. -/
theorem C5_voice_precondition (a : ModAction) (botRank : Nat)
    (author member : Principal) (ropt : Option String) (env : MutationResult)
    (ha : isVoiceAction a = true) (hv : member.inVoice = false) :
    dispatch a botRank author member ropt env =
      ⟨[mention member ++ " is not in a voice channel."], []⟩ := by
  cases a
  case kick => exact absurd ha (by simp [isVoiceAction])
  case ban => exact absurd ha (by simp [isVoiceAction])
  case mute =>
    unfold dispatch mute_slash
    rw [if_pos hv]
  case unmute =>
    unfold dispatch unmute_slash
    rw [if_pos hv]
  case deafen =>
    unfold dispatch deafen_slash
    rw [if_pos hv]
  case undeafen =>
    unfold dispatch undeafen_slash
    rw [if_pos hv]
  case silence =>
    unfold dispatch silence_slash
    rw [if_pos hv]
  case unsilence =>
    unfold dispatch unsilence_slash
    rw [if_pos hv]

/-- Claim C5 witness: concrete `/mute` on a target outranking everyone but
absent from voice. -/
theorem C5_witness :
    dispatch ModAction.mute 5 (Principal.mk 1 "a" "A" 9 [] false false)
        (Principal.mk 2 "b" "B" 100 [] false false) none MutationResult.ok =
      ⟨[mention (Principal.mk 2 "b" "B" 100 [] false false) ++ " is not in a voice channel."], []⟩ :=
  C5_voice_precondition ModAction.mute 5 (Principal.mk 1 "a" "A" 9 [] false false)
    (Principal.mk 2 "b" "B" 100 [] false false) none MutationResult.ok rfl rfl

/-- Claim C9: `remove_mod_role` on a role id absent from the configured list
leaves the list unchanged and replies "is not a moderator role". -/
theorem C9_removerole_absent (mods : List Nat) (r : Nat) (h : r ∉ mods) :
    remove_mod_role mods r = (mods, roleMention r ++ " is not a moderator role.") := by
  unfold remove_mod_role
  rw [if_pos h]

/-- Claim C9 witness: removing role 5 from the configuration `[1, 2]`. -/
theorem C9_witness :
    remove_mod_role [1, 2] 5 = ([1, 2], roleMention 5 ++ " is not a moderator role.") :=
  C9_removerole_absent [1, 2] 5 (by decide)

/-- Claim C1 (corrected): the bot-rank check exists only in the `kick` and
`ban` handlers.  For those, whenever the earlier self-target and actor-rank
checks pass and the bot rank is at most the target rank, the request is
rejected with the bot-outranked message and no mutation is invoked; the six
voice-action handlers never consult the bot rank at all (their outcome is
the same for any two bot ranks). -/
theorem C1_bot_outranked_kick_ban (botRank : Nat) (author member : Principal)
    (reason : String) (env : MutationResult)
    (hself : member.id ≠ author.id)
    (hactor : member.topRoleRank < author.topRoleRank ∨ author.isOwner = true)
    (hbot : botRank ≤ member.topRoleRank) :
    kick_slash botRank author member reason env =
      ⟨["I cannot kick a member with an equal or higher role than me."], []⟩ ∧
    ban_slash botRank author member reason env =
      ⟨["I cannot ban a member with an equal or higher role than me."], []⟩ ∧
    (∀ a, isVoiceAction a = true → ∀ b1 b2 ropt,
      dispatch a b1 author member ropt env = dispatch a b2 author member ropt env) := by
  have hactor2 : ¬ (author.topRoleRank ≤ member.topRoleRank ∧ author.isOwner = false) := by
    rcases hactor with hlt | hown
    · exact fun hc => absurd hc.1 (not_le.mpr hlt)
    · exact fun hc => by simp [hown] at hc
  refine ⟨?_, ?_, ?_⟩
  · unfold kick_slash
    rw [if_neg hself, if_neg hactor2, if_pos hbot]
  · unfold ban_slash
    rw [if_neg hself, if_neg hactor2, if_pos hbot]
  · intro a ha b1 b2 ropt
    cases a
    case kick => exact absurd ha (by simp [isVoiceAction])
    case ban => exact absurd ha (by simp [isVoiceAction])
    all_goals rfl

/-- Claim C1 witness: actor rank 20 over target rank 10, bot rank 3,
`kick` rejected by the bot-rank check. -/
theorem C1_witness :
    kick_slash 3 (Principal.mk 1 "a" "A" 20 [] false false)
        (Principal.mk 2 "b" "B" 10 [] false true) "x" MutationResult.ok =
      ⟨["I cannot kick a member with an equal or higher role than me."], []⟩ :=
  (C1_bot_outranked_kick_ban 3 (Principal.mk 1 "a" "A" 20 [] false false)
    (Principal.mk 2 "b" "B" 10 [] false true) "x" MutationResult.ok
    (by decide) (Or.inl (by decide)) (by decide)).1

/-- Claim C1 counterexample: `/mute` with bot rank 0 ≤ target rank 10
(actor rank 20, target in voice) invokes the platform mutation instead of
rejecting with the bot-outranked message, refuting the claim for the voice
actions. -/
theorem C1_counterexample :
    (dispatch ModAction.mute 0 (Principal.mk 1 "a" "A" 20 [] false false)
        (Principal.mk 2 "b" "B" 10 [] false true) (some "r")
        MutationResult.ok).mutations.length = 1 := by
  decide

/-- Claim C4 (corrected): owner status never bypasses the bot-rank check of
`kick` and `ban` — provided the request is not self-targeted (the
self-target check fires first and yields a different message).  For every
owner actor, distinct target and bot rank at most the target rank, both
handlers reject with the bot-outranked message and invoke no mutation. -/
theorem C4_owner_no_bypass_bot_check (botRank : Nat) (author member : Principal)
    (reason : String) (env : MutationResult)
    (hown : author.isOwner = true) (hself : member.id ≠ author.id)
    (hbot : botRank ≤ member.topRoleRank) :
    kick_slash botRank author member reason env =
      ⟨["I cannot kick a member with an equal or higher role than me."], []⟩ ∧
    ban_slash botRank author member reason env =
      ⟨["I cannot ban a member with an equal or higher role than me."], []⟩ := by
  have hactor2 : ¬ (author.topRoleRank ≤ member.topRoleRank ∧ author.isOwner = false) :=
    fun hc => by simp [hown] at hc
  constructor
  · unfold kick_slash
    rw [if_neg hself, if_neg hactor2, if_pos hbot]
  · unfold ban_slash
    rw [if_neg hself, if_neg hactor2, if_pos hbot]

/-- Claim C4 witness: owner actor, target rank 10, bot rank 3 — the ban is
rejected by the bot-rank check despite the owner bypass. -/
theorem C4_witness :
    ban_slash 3 (Principal.mk 1 "a" "A" 0 [] true false)
        (Principal.mk 2 "b" "B" 10 [] false false) "x" MutationResult.ok =
      ⟨["I cannot ban a member with an equal or higher role than me."], []⟩ :=
  (C4_owner_no_bypass_bot_check 3 (Principal.mk 1 "a" "A" 0 [] true false)
    (Principal.mk 2 "b" "B" 10 [] false false) "x" MutationResult.ok
    rfl (by decide) (by decide)).2

/-- Claim C4 counterexample: an owner kick request that targets the owner
themself, with bot rank 0 ≤ target rank 3, is rejected by the self-target
check, not with the bot-outranked message the claim demands for every such
request. -/
theorem C4_counterexample :
    (kick_slash 0 (Principal.mk 7 "o" "O" 3 [] true false)
        (Principal.mk 7 "o" "O" 3 [] true false) "x" MutationResult.ok).messages =
      ["You cannot kick yourself."] := by
  decide

/-- Claim C10: a voice-action request in which the actor targets themself
while in a voice channel hits the rank comparison (a rank is never strictly
below itself): a non-owner is rejected with the "equal or higher role"
message and no mutation occurs, while an owner passes every check and the
self-targeted mutation is attempted. -/
theorem C10_voice_self_target (a : ModAction) (p : Principal) (botRank : Nat)
    (ropt : Option String) (env : MutationResult)
    (ha : isVoiceAction a = true) (hv : p.inVoice = true) :
    (p.isOwner = false →
      dispatch a botRank p p ropt env = ⟨[hierarchyRejectMsg a], []⟩) ∧
    (p.isOwner = true →
      (dispatch a botRank p p ropt env).mutations.length = 1) := by
  have hV : ¬ (p.inVoice = false) := by simp [hv]
  constructor
  · intro hown
    have hcond : p.topRoleRank ≤ p.topRoleRank ∧ p.isOwner = false := ⟨le_refl _, hown⟩
    cases a
    case kick => exact absurd ha (by simp [isVoiceAction])
    case ban => exact absurd ha (by simp [isVoiceAction])
    case mute =>
      simp only [dispatch]
      unfold mute_slash
      rw [if_neg hV, if_pos hcond]
      decide
    case unmute =>
      simp only [dispatch]
      unfold unmute_slash
      rw [if_neg hV, if_pos hcond]
      decide
    case deafen =>
      simp only [dispatch]
      unfold deafen_slash
      rw [if_neg hV, if_pos hcond]
      decide
    case undeafen =>
      simp only [dispatch]
      unfold undeafen_slash
      rw [if_neg hV, if_pos hcond]
      decide
    case silence =>
      simp only [dispatch]
      unfold silence_slash
      rw [if_neg hV, if_pos hcond]
      decide
    case unsilence =>
      simp only [dispatch]
      unfold unsilence_slash
      rw [if_neg hV, if_pos hcond]
      decide
  · intro hown
    have hcond : ¬ (p.topRoleRank ≤ p.topRoleRank ∧ p.isOwner = false) :=
      fun hc => by simp [hown] at hc
    cases a
    case kick => exact absurd ha (by simp [isVoiceAction])
    case ban => exact absurd ha (by simp [isVoiceAction])
    case mute =>
      unfold dispatch mute_slash
      rw [if_neg hV, if_neg hcond]
      cases env <;> rfl
    case unmute =>
      unfold dispatch unmute_slash
      rw [if_neg hV, if_neg hcond]
      cases env <;> rfl
    case deafen =>
      unfold dispatch deafen_slash
      rw [if_neg hV, if_neg hcond]
      cases env <;> rfl
    case undeafen =>
      unfold dispatch undeafen_slash
      rw [if_neg hV, if_neg hcond]
      cases env <;> rfl
    case silence =>
      unfold dispatch silence_slash
      rw [if_neg hV, if_neg hcond]
      cases env <;> rfl
    case unsilence =>
      unfold dispatch unsilence_slash
      rw [if_neg hV, if_neg hcond]
      cases env <;> rfl

/-- Claim C10 witness: owner self-silence in voice attempts the mutation. -/
theorem C10_witness :
    (dispatch ModAction.silence 4 (Principal.mk 7 "o" "O" 3 [] true true)
        (Principal.mk 7 "o" "O" 3 [] true true) (some "x")
        MutationResult.ok).mutations.length = 1 :=
  (C10_voice_self_target ModAction.silence (Principal.mk 7 "o" "O" 3 [] true true)
    4 (some "x") MutationResult.ok rfl rfl).2 rfl

/-- Claim C6: for every action whose guard checks all pass, a `Forbidden`
fault from the platform mutation is mapped to the fixed
"I don\x27t have the required permissions to ... this user." message (never the
raw fault text), any other fault is reported as "An error occurred: " plus
the failure description, and in both cases the mutation was invoked exactly
once (no retry). -/
theorem C6_failure_mapping (a : ModAction) (botRank : Nat)
    (author member : Principal) (ropt : Option String) (e : String)
    (h : guardsPass a botRank author member = true) :
    ((dispatch a botRank author member ropt MutationResult.forbidden).messages =
        ["I don\x27t have the required permissions to " ++ actionName a ++ " this user."] ∧
      (dispatch a botRank author member ropt MutationResult.forbidden).mutations.length = 1) ∧
    ((dispatch a botRank author member ropt (MutationResult.err e)).messages =
        ["An error occurred: " ++ e] ∧
      (dispatch a botRank author member ropt (MutationResult.err e)).mutations.length = 1) := by
  cases a
  all_goals simp only [guardsPass, decide_eq_true_eq] at h
  case kick =>
    obtain ⟨h1, h2, h3⟩ := h
    have hB : ¬ (author.topRoleRank ≤ member.topRoleRank ∧ author.isOwner = false) := by
      rcases h2 with hlt | hown
      · exact fun hc => absurd hc.1 (not_le.mpr hlt)
      · exact fun hc => by simp [hown] at hc
    have hC : ¬ (botRank ≤ member.topRoleRank) := not_le.mpr h3
    simp only [dispatch]
    unfold kick_slash
    simp only [if_neg h1, if_neg hB, if_neg hC]
    refine ⟨⟨by decide, ?_⟩, ?_, ?_⟩ <;> trivial
  case ban =>
    obtain ⟨h1, h2, h3⟩ := h
    have hB : ¬ (author.topRoleRank ≤ member.topRoleRank ∧ author.isOwner = false) := by
      rcases h2 with hlt | hown
      · exact fun hc => absurd hc.1 (not_le.mpr hlt)
      · exact fun hc => by simp [hown] at hc
    have hC : ¬ (botRank ≤ member.topRoleRank) := not_le.mpr h3
    simp only [dispatch]
    unfold ban_slash
    simp only [if_neg h1, if_neg hB, if_neg hC]
    refine ⟨⟨by decide, ?_⟩, ?_, ?_⟩ <;> trivial
  case mute =>
    obtain ⟨h1, h2⟩ := h
    have hV : ¬ (member.inVoice = false) := by simp [h1]
    have hB : ¬ (author.topRoleRank ≤ member.topRoleRank ∧ author.isOwner = false) := by
      rcases h2 with hlt | hown
      · exact fun hc => absurd hc.1 (not_le.mpr hlt)
      · exact fun hc => by simp [hown] at hc
    simp only [dispatch]
    unfold mute_slash
    simp only [if_neg hV, if_neg hB]
    refine ⟨⟨by decide, ?_⟩, ?_, ?_⟩ <;> trivial
  case unmute =>
    obtain ⟨h1, h2⟩ := h
    have hV : ¬ (member.inVoice = false) := by simp [h1]
    have hB : ¬ (author.topRoleRank ≤ member.topRoleRank ∧ author.isOwner = false) := by
      rcases h2 with hlt | hown
      · exact fun hc => absurd hc.1 (not_le.mpr hlt)
      · exact fun hc => by simp [hown] at hc
    simp only [dispatch]
    unfold unmute_slash
    simp only [if_neg hV, if_neg hB]
    refine ⟨⟨by decide, ?_⟩, ?_, ?_⟩ <;> trivial
  case deafen =>
    obtain ⟨h1, h2⟩ := h
    have hV : ¬ (member.inVoice = false) := by simp [h1]
    have hB : ¬ (author.topRoleRank ≤ member.topRoleRank ∧ author.isOwner = false) := by
      rcases h2 with hlt | hown
      · exact fun hc => absurd hc.1 (not_le.mpr hlt)
      · exact fun hc => by simp [hown] at hc
    simp only [dispatch]
    unfold deafen_slash
    simp only [if_neg hV, if_neg hB]
    refine ⟨⟨by decide, ?_⟩, ?_, ?_⟩ <;> trivial
  case undeafen =>
    obtain ⟨h1, h2⟩ := h
    have hV : ¬ (member.inVoice = false) := by simp [h1]
    have hB : ¬ (author.topRoleRank ≤ member.topRoleRank ∧ author.isOwner = false) := by
      rcases h2 with hlt | hown
      · exact fun hc => absurd hc.1 (not_le.mpr hlt)
      · exact fun hc => by simp [hown] at hc
    simp only [dispatch]
    unfold undeafen_slash
    simp only [if_neg hV, if_neg hB]
    refine ⟨⟨by decide, ?_⟩, ?_, ?_⟩ <;> trivial
  case silence =>
    obtain ⟨h1, h2⟩ := h
    have hV : ¬ (member.inVoice = false) := by simp [h1]
    have hB : ¬ (author.topRoleRank ≤ member.topRoleRank ∧ author.isOwner = false) := by
      rcases h2 with hlt | hown
      · exact fun hc => absurd hc.1 (not_le.mpr hlt)
      · exact fun hc => by simp [hown] at hc
    simp only [dispatch]
    unfold silence_slash
    simp only [if_neg hV, if_neg hB]
    refine ⟨⟨by decide, ?_⟩, ?_, ?_⟩ <;> trivial
  case unsilence =>
    obtain ⟨h1, h2⟩ := h
    have hV : ¬ (member.inVoice = false) := by simp [h1]
    have hB : ¬ (author.topRoleRank ≤ member.topRoleRank ∧ author.isOwner = false) := by
      rcases h2 with hlt | hown
      · exact fun hc => absurd hc.1 (not_le.mpr hlt)
      · exact fun hc => by simp [hown] at hc
    simp only [dispatch]
    unfold unsilence_slash
    simp only [if_neg hV, if_neg hB]
    refine ⟨⟨by decide, ?_⟩, ?_, ?_⟩ <;> trivial

/-- Claim C6 witness: all kick checks pass and the platform rejects with a
permission fault. -/
theorem C6_witness :
    (dispatch ModAction.kick 10 (Principal.mk 1 "a" "A" 5 [] false false)
        (Principal.mk 2 "b" "B" 2 [] false false) none
        MutationResult.forbidden).messages =
      ["I don\x27t have the required permissions to " ++ actionName ModAction.kick ++ " this user."] :=
  ((C6_failure_mapping ModAction.kick 10 (Principal.mk 1 "a" "A" 5 [] false false)
    (Principal.mk 2 "b" "B" 2 [] false false) none "boom" (by decide)).1).1

/-- Claim C7 (corrected): for each action offered both as a slash command
and as a context-menu command (kick, ban, mute, deafen), the two entry
points run the same guard checks in the same order with the same rejection
messages, and invoke the same platform mutation on the same target — but
the composed audit reason differs: the slash command sends
"...ed by name (id). Reason: reason" while the context-menu command sends
"...ed by displayName via context menu." and accepts no reason parameter.
Stated for the slash command at its default reason, the only configuration
comparable with the reasonless context-menu entry. -/
theorem C7_entry_point_equivalence (botRank : Nat) (author member : Principal)
    (env : MutationResult) :
    (((kick_slash botRank author member defaultReason env).mutations = [] ↔
        (kick_context_menu botRank author member env).mutations = []) ∧
      ((kick_slash botRank author member defaultReason env).mutations = [] →
        kick_slash botRank author member defaultReason env =
          kick_context_menu botRank author member env) ∧
      ((kick_slash botRank author member defaultReason env).mutations ≠ [] →
        (kick_slash botRank author member defaultReason env).mutations =
          [MutationCall.kickCall member.id
            ("Kicked by " ++ author.name ++ " (" ++ toString author.id ++ "). Reason: " ++ defaultReason)] ∧
        (kick_context_menu botRank author member env).mutations =
          [MutationCall.kickCall member.id
            ("Kicked by " ++ author.displayName ++ " via context menu.")])) ∧
    (((ban_slash botRank author member defaultReason env).mutations = [] ↔
        (ban_context_menu botRank author member env).mutations = []) ∧
      ((ban_slash botRank author member defaultReason env).mutations = [] →
        ban_slash botRank author member defaultReason env =
          ban_context_menu botRank author member env) ∧
      ((ban_slash botRank author member defaultReason env).mutations ≠ [] →
        (ban_slash botRank author member defaultReason env).mutations =
          [MutationCall.banCall member.id
            ("Banned by " ++ author.name ++ " (" ++ toString author.id ++ "). Reason: " ++ defaultReason)] ∧
        (ban_context_menu botRank author member env).mutations =
          [MutationCall.banCall member.id
            ("Banned by " ++ author.displayName ++ " via context menu.")])) ∧
    (((mute_slash author member defaultReason env).mutations = [] ↔
        (mute_context_menu author member env).mutations = []) ∧
      ((mute_slash author member defaultReason env).mutations = [] →
        mute_slash author member defaultReason env =
          mute_context_menu author member env) ∧
      ((mute_slash author member defaultReason env).mutations ≠ [] →
        (mute_slash author member defaultReason env).mutations =
          [MutationCall.editCall member.id (some true) none
            ("Muted by " ++ author.name ++ " (" ++ toString author.id ++ "). Reason: " ++ defaultReason)] ∧
        (mute_context_menu author member env).mutations =
          [MutationCall.editCall member.id (some true) none
            ("Muted by " ++ author.displayName ++ " via context menu.")])) ∧
    (((deafen_slash author member defaultReason env).mutations = [] ↔
        (deafen_context_menu author member env).mutations = []) ∧
      ((deafen_slash author member defaultReason env).mutations = [] →
        deafen_slash author member defaultReason env =
          deafen_context_menu author member env) ∧
      ((deafen_slash author member defaultReason env).mutations ≠ [] →
        (deafen_slash author member defaultReason env).mutations =
          [MutationCall.editCall member.id none (some true)
            ("Deafened by " ++ author.name ++ " (" ++ toString author.id ++ "). Reason: " ++ defaultReason)] ∧
        (deafen_context_menu author member env).mutations =
          [MutationCall.editCall member.id none (some true)
            ("Deafened by " ++ author.displayName ++ " via context menu.")])) := by
  refine ⟨?_, ?_, ?_, ?_⟩
  · unfold kick_slash kick_context_menu
    split_ifs <;> cases env <;> simp
  · unfold ban_slash ban_context_menu
    split_ifs <;> cases env <;> simp
  · unfold mute_slash mute_context_menu
    split_ifs <;> cases env <;> simp
  · unfold deafen_slash deafen_context_menu
    split_ifs <;> cases env <;> simp

/-- Claim C7 witness: a kick on which every guard passes, showing the
mutation each entry point performs. -/
theorem C7_witness :
    (kick_slash 10 (Principal.mk 1 "alice" "Alice" 5 [] false false)
        (Principal.mk 2 "bob" "Bob" 2 [] false true) defaultReason
        MutationResult.ok).mutations =
      [MutationCall.kickCall 2
        ("Kicked by " ++ "alice" ++ " (" ++ toString 1 ++ "). Reason: " ++ defaultReason)] ∧
    (kick_context_menu 10 (Principal.mk 1 "alice" "Alice" 5 [] false false)
        (Principal.mk 2 "bob" "Bob" 2 [] false true) MutationResult.ok).mutations =
      [MutationCall.kickCall 2 ("Kicked by " ++ "Alice" ++ " via context menu.")] := by
  have h := C7_entry_point_equivalence 10 (Principal.mk 1 "alice" "Alice" 5 [] false false)
    (Principal.mk 2 "bob" "Bob" 2 [] false true) MutationResult.ok
  exact h.1.2.2 (by decide)

/-- Claim C7 counterexample: on the same accepted kick request, the slash
command and the context-menu command pass different audit reason strings to
the platform mutation, refuting "the same composed audit reason". -/
theorem C7_counterexample :
    (kick_slash 10 (Principal.mk 1 "carol" "Carol" 5 [] false false)
        (Principal.mk 2 "dave" "Dave" 2 [] false true) defaultReason
        MutationResult.ok).mutations ≠
      (kick_context_menu 10 (Principal.mk 1 "carol" "Carol" 5 [] false false)
        (Principal.mk 2 "dave" "Dave" 2 [] false true) MutationResult.ok).mutations := by
  decide

/-- Helper: adding an already-present role id replies "is already a
moderator role" and keeps the list. -/
lemma add_mod_role_mem (l : List Nat) (x : Nat) (hx : x ∈ l) :
    add_mod_role l x = (l, roleMention x ++ " is already a moderator role.") := by
  unfold add_mod_role
  rw [if_pos hx]

/-- Helper: after `add_mod_role`, the role id is in the list. -/
lemma mem_add_mod_role (l : List Nat) (x : Nat) : x ∈ (add_mod_role l x).1 := by
  unfold add_mod_role
  by_cases hx : x ∈ l
  · rw [if_pos hx]
    exact hx
  · rw [if_neg hx]
    exact List.mem_append_right l (List.mem_singleton_self x)

/-- Helper: one configuration command preserves duplicate-freedom. -/
lemma nodup_applyOp (mods : List Nat) (op : ConfigOp) (h : mods.Nodup) :
    (applyOp mods op).Nodup := by
  cases op with
  | add r =>
      show ((add_mod_role mods r).1).Nodup
      unfold add_mod_role
      by_cases hr : r ∈ mods
      · rw [if_pos hr]
        exact h
      · rw [if_neg hr]
        show (mods ++ [r]).Nodup
        rw [List.nodup_append]
        refine ⟨h, List.nodup_singleton r, ?_⟩
        intro a ha hb
        rw [List.mem_singleton] at hb
        subst hb
        exact hr ha
  | remove r =>
      show ((remove_mod_role mods r).1).Nodup
      unfold remove_mod_role
      by_cases hr : r ∉ mods
      · rw [if_pos hr]
        exact h
      · rw [if_neg hr]
        exact h.erase r

/-- Helper: any command sequence preserves duplicate-freedom. -/
lemma nodup_applyOps (ops : List ConfigOp) (mods : List Nat) (h : mods.Nodup) :
    (applyOps mods ops).Nodup := by
  induction ops generalizing mods with
  | nil => exact h
  | cons op rest ih =>
      simp only [applyOps, List.foldl_cons]
      exact ih (applyOp mods op) (nodup_applyOp mods op h)

/-- Claim C8: `add_mod_role` is idempotent at the set level — on a
duplicate-free configuration, a second add of the same role leaves the list
unchanged, replies "is already a moderator role" and the role id occurs
exactly once; and every configuration reachable from the registered default
`[]` by add/remove commands is duplicate-free. -/
theorem C8_addrole_idempotent (mods : List Nat) (r : Nat) (h : mods.Nodup) :
    (add_mod_role (add_mod_role mods r).1 r).1 = (add_mod_role mods r).1 ∧
    (add_mod_role (add_mod_role mods r).1 r).2 =
      roleMention r ++ " is already a moderator role." ∧
    (add_mod_role (add_mod_role mods r).1 r).1.count r = 1 ∧
    ∀ ops : List ConfigOp, (applyOps [] ops).Nodup := by
  have hmem : r ∈ (add_mod_role mods r).1 := mem_add_mod_role mods r
  have hnd : (add_mod_role mods r).1.Nodup := nodup_applyOp mods (ConfigOp.add r) h
  have h2 := add_mod_role_mem (add_mod_role mods r).1 r hmem
  refine ⟨?_, ?_, ?_, ?_⟩
  · rw [h2]
  · rw [h2]
  · rw [h2]
    exact List.count_eq_one_of_mem hnd hmem
  · intro ops
    exact nodup_applyOps ops [] List.nodup_nil

/-- Claim C8 witness: double add of role 5 to the configuration `[3]`. -/
theorem C8_witness :
    (add_mod_role (add_mod_role [3] 5).1 5).1 = (add_mod_role [3] 5).1 ∧
    (add_mod_role (add_mod_role [3] 5).1 5).2 =
      roleMention 5 ++ " is already a moderator role." ∧
    (add_mod_role (add_mod_role [3] 5).1 5).1.count 5 = 1 ∧
    ∀ ops : List ConfigOp, (applyOps [] ops).Nodup :=
  C8_addrole_idempotent [3] 5 (by decide)
